import Mathlib

/-!
Verification of the TSL2561 ambient-light-sensor driver
(`Ductsoup_Python_TSL2561.py`) against its natural-language design
specification.

The driver is embedded shallowly:

* the module-level constant tables (`_INTEGRATION_TIME`, `_HDR`,
  `TSL2561._LUX_SCALE`) become Lean constants;
* the illuminance converter `TSL2561._lux` becomes a pure function over ℚ
  (the source begins with `from __future__ import division`, so every `/`
  in the formula is true division, which ℚ models exactly);
* the stateful driver becomes explicit state passing over a `DriverState`
  (the instance attributes `_gain`, `_integration_time`, `_hdr`,
  `_active`, …) and a `World` (the device's register file, a stream of
  channel readings, and a log of the register writes issued);
* a raised Python exception is modelled as an error value (`none` of an
  `Option`, or a `ReadResult.raised`/`Except.error` carrying a `PyError`);
* the unbounded `while True` loop of the HDR read is modelled with fuel.
-/

/-! ## Module-level constants (source lines 5-22, 42-49) -/

def _COMMAND_BIT : Nat := 0x80
def _WORD_BIT : Nat := 0x20
def _CLEAR_BIT : Nat := 0x40

def _REGISTER_CONTROL : Nat := 0x00
def _REGISTER_TIMING : Nat := 0x01
def _REGISTER_THRESHHOLD_MIN : Nat := 0x02
def _REGISTER_THRESHHOLD_MAX : Nat := 0x04
def _REGISTER_INTERRUPT : Nat := 0x06
def _REGISTER_ID : Nat := 0x0A
def _REGISTER_CHANNEL0 : Nat := 0x0C
def _REGISTER_CHANNEL1 : Nat := 0x0E

def _CONTROL_POWERON : Nat := 0x03
def _CONTROL_POWEROFF : Nat := 0x00

def _INTERRUPT_NONE : Nat := 0x00
def _INTERRUPT_LEVEL : Nat := 0x10

def TSL2561_ADDR_LOW : Nat := 0x29
def TSL2561_ADDR_FLOAT : Nat := 0x39
def TSL2561_ADDR_HIGH : Nat := 0x49

def TSL2561_LOWPOWER : Nat := 0
def TSL2561_STANDARD : Nat := 1

/-! ## The integration-time table (source lines 24-30)

One row of `_INTEGRATION_TIME`: `(hex, wait, clip, min, max, scale)`,
indexed in the source by tuple position 0..5. -/

structure IntegrationProfile where
  hex : Nat
  wait : Nat
  clip : Nat
  min : Nat
  max : Nat
  scale : Nat
deriving DecidableEq, Repr

/-- The `_INTEGRATION_TIME` dict; `none` models a `KeyError` on lookup. -/
def _INTEGRATION_TIME (t : Nat) : Option IntegrationProfile :=
  if t = 13 then some ⟨0x00, 15, 4900, 100, 4850, 0x7517⟩
  else if t = 101 then some ⟨0x01, 120, 37000, 200, 36000, 0x0FE7⟩
  else if t = 402 then some ⟨0x02, 450, 65000, 500, 63000, 1024⟩
  else if t = 0 then some ⟨0x03, 0, 0, 0, 0, 0⟩
  else none

/-! ## The HDR tier table (source lines 32-40) -/

structure HdrTier where
  gain : Nat
  time : Nat
  min : Option Nat
  max : Option Nat
deriving DecidableEq, Repr

/-- The `_HDR` dict, keyed by the tier index, which in Python is an
arbitrary integer (`self._hdr` is incremented and decremented); `none`
models a `KeyError` for an index outside 0..5. -/
def _HDR (i : ℤ) : Option HdrTier :=
  if i = 0 then some ⟨16, 402, none, some 62258⟩
  else if i = 1 then some ⟨16, 101, some 1859, some 35318⟩
  else if i = 2 then some ⟨1, 402, some 3277, some 62258⟩
  else if i = 3 then some ⟨16, 13, some 252, some 4876⟩
  else if i = 4 then some ⟨1, 101, some 1859, some 35318⟩
  else if i = 5 then some ⟨1, 13, some 252, none⟩
  else none

/-! ## The lux calibration table (source lines 53-62) -/

/-- `TSL2561._LUX_SCALE`: `(K, B, M)` triples, in source order
(ascending ratio ceiling `K`). -/
def _LUX_SCALE : List (Nat × Nat × Nat) :=
  [(0x0040, 0x01f2, 0x01be),
   (0x0080, 0x0214, 0x02d1),
   (0x00c0, 0x023f, 0x037b),
   (0x0100, 0x0270, 0x03fe),
   (0x0138, 0x016f, 0x01fc),
   (0x019a, 0x00d2, 0x00fb),
   (0x029a, 0x0018, 0x0012)]

/-- `TSL2561CS._LUX_SCALE`: the same shape with the CS-package constants
(source lines 293-304). -/
def TSL2561CS_LUX_SCALE : List (Nat × Nat × Nat) :=
  [(0x0043, 0x0204, 0x01ad),
   (0x0085, 0x0228, 0x02c1),
   (0x00c8, 0x0253, 0x0363),
   (0x010a, 0x0282, 0x03df),
   (0x014d, 0x0177, 0x01dd),
   (0x019a, 0x0101, 0x0127),
   (0x029a, 0x0037, 0x002b)]

/-! ## The illuminance converter `TSL2561._lux` (source lines 114-134) -/

/-- The `for k, b, m in self._LUX_SCALE: if ratio <= k: break` loop with
its `else: b = 0; m = 0` clause: the `(b, m)` pair left bound after the
loop. -/
def luxLookup (r : ℚ) : List (Nat × Nat × Nat) → Nat × Nat
  | [] => (0, 0)
  | (k, b, m) :: rest => if r ≤ (k : ℚ) then (b, m) else luxLookup r rest

/-- `TSL2561._lux`, as a function of the driver fields it reads
(`self._gain`, `self._integration_time`) and the raw channel pair.
Result: `none` models the raised `ValueError` (manual integration time)
or a `KeyError` on the table lookup; `some none` is the saturation
sentinel (`return None`); `some (some q)` is a numeric lux. -/
def luxCalc (lux_scale : List (Nat × Nat × Nat)) (gain t vnir ir : Nat) :
    Option (Option ℚ) :=
  if t = 0 then none
  else
    match _INTEGRATION_TIME t with
    | none => none
    | some p =>
      if vnir > p.clip ∨ ir > p.clip then some none
      else
        let scale : ℚ := 16 * (p.scale : ℚ) / (gain : ℚ)
        let channel0 : ℚ := (vnir : ℚ) * scale / 1024
        let channel1 : ℚ := (ir : ℚ) * scale / 1024
        let r : ℚ := ((if channel0 ≠ 0 then channel1 * 1024 / channel0 else 0) + 1) / 2
        let bm := luxLookup r lux_scale
        some (some ((max 0 (channel0 * (bm.1 : ℚ) - channel1 * (bm.2 : ℚ)) + 8192) / 16384))

/-! ## The spec's 4.6 formula, written from the specification text

Section 4.6 of the spec: "scale = 16 × profile.lux_scale_divisor / gain;
ch0 = vnir × scale / 1024; ch1 = ir × scale / 1024;
ratio = ((ch1×1024/ch0 if ch0≠0 else 0) + 1) / 2; look up the first
calibration triple whose ratio_ceiling ≥ ratio (triples are checked in
ascending ratio_ceiling order; if ratio exceeds all ceilings, B=M=0);
lux = max(0, ch0×B − ch1×M) + 8192, divided by 16384."  This definition
follows those words; it exists only to be compared with `luxCalc`. -/

/-- The first calibration triple whose ratio ceiling is ≥ the ratio,
checked in list order; `(0, 0)` when the ratio exceeds all ceilings. -/
def specLookupBM (r : ℚ) : List (Nat × Nat × Nat) → Nat × Nat
  | [] => (0, 0)
  | (k, b, m) :: rest => if (k : ℚ) ≥ r then (b, m) else specLookupBM r rest

/-- The spec 4.6 lux formula, for an unsaturated reading with a valid
preset integration profile. -/
def specLux (table : List (Nat × Nat × Nat)) (lux_scale_divisor gain vnir ir : Nat) : ℚ :=
  let scale : ℚ := 16 * (lux_scale_divisor : ℚ) / (gain : ℚ)
  let ch0 : ℚ := (vnir : ℚ) * scale / 1024
  let ch1 : ℚ := (ir : ℚ) * scale / 1024
  let r : ℚ := ((if ch0 ≠ 0 then ch1 * 1024 / ch0 else 0) + 1) / 2
  let bm := specLookupBM r table
  (max 0 (ch0 * (bm.1 : ℚ) - ch1 * (bm.2 : ℚ)) + 8192) / 16384

/-! ## Python error values -/

/-- The exception kinds the driver can raise. -/
inductive PyError where
  | valueError : PyError
  | runtimeError : PyError
  | attributeError : PyError
deriving DecidableEq, Repr

/-! ## Driver and device state

`DriverState` holds the instance attributes the core operations mutate.
`self._active` starts as `None` in `__init__` (line 89) before the first
`active(...)` call, hence `Option Bool`.  `World` holds the device side:
the writable registers the driver reads back (`TIMING`, the threshold
pair, `INTERRUPT`), a stream of channel readings (`readings n` is the
pair returned by the n-th `_read`, the two 16-bit channel reads of one
`_read` call taken together), and a log of every register write issued
over the bus, as `(bus address, value)` pairs. -/

structure DriverState where
  _gain : Nat
  _integration_time : Nat
  _hdr : Option ℤ
  _active : Option Bool
  last_vnir : Option Nat
  last_ir : Option Nat
deriving DecidableEq, Repr

structure World where
  timingReg : Nat
  threshMinReg : Nat
  threshMaxReg : Nat
  interruptReg : Nat
  readings : Nat → Nat × Nat
  rIdx : Nat
  writes : List (Nat × Nat)

/-- `TSL2561._register8` in write mode (source lines 100-105): the
register address is OR'd with the command bit; the write is logged, and
the byte-wide registers the driver later reads back are updated. -/
def register8Write (w : World) (reg value : Nat) : World :=
  { w with
    writes := w.writes ++ [(reg ||| _COMMAND_BIT, value)]
    timingReg := if reg = _REGISTER_TIMING then value else w.timingReg
    interruptReg := if reg = _REGISTER_INTERRUPT then value else w.interruptReg }

/-- `TSL2561._register16` in write mode (source lines 107-112): the
address is OR'd with the command and word bits. -/
def register16Write (w : World) (reg value : Nat) : World :=
  { w with
    writes := w.writes ++ [(reg ||| _COMMAND_BIT ||| _WORD_BIT, value)]
    threshMinReg := if reg = _REGISTER_THRESHHOLD_MIN then value else w.threshMinReg
    threshMaxReg := if reg = _REGISTER_THRESHHOLD_MAX then value else w.threshMaxReg }

/-! ## `TSL2561.active` (source lines 163-172) -/

/-- `active(value)` with a boolean argument: writes the power command
only when the state changes. -/
def TSL2561.active_set (s : DriverState) (w : World) (value : Bool) :
    DriverState × World :=
  if some value ≠ s._active then
    ({ s with _active := some value },
     register8Write w _REGISTER_CONTROL
       (if value then _CONTROL_POWERON else _CONTROL_POWEROFF))
  else (s, w)

/-- `active(was_active)` where `was_active` may be the pre-construction
`None`: Python's `active(None)` is the getter and performs no write. -/
def TSL2561.active_restore (s : DriverState) (w : World) (value : Option Bool) :
    DriverState × World :=
  match value with
  | none => (s, w)
  | some v => TSL2561.active_set s w v

/-! ## `TSL2561._update_range` (source lines 190-211) -/

/-- The `{1: 0x00, 16: 0x10}[gain]` dict lookup; `none` models the
`KeyError` for any other gain. -/
def gainBits (g : Nat) : Option Nat :=
  if g = 1 then some 0x00 else if g = 16 then some 0x10 else none

/-- The gain half of `_update_range` (source lines 196-203): when the
requested gain differs from the current one, power down an active
device, then rewrite the timing register keeping its low two bits.
`none` models the `KeyError` of the `{1: 0x00, 16: 0x10}[gain]`
lookup. -/
def urGainStep (s : DriverState) (w : World) (was_active : Option Bool)
    (gain : Option Nat) : Option (DriverState × World) :=
  match gain with
  | none => some (s, w)
  | some g =>
    if g ≠ s._gain then
      let sw := if was_active = some true then TSL2561.active_set s w false else (s, w)
      match gainBits g with
      | none => none
      | some bits =>
        some ({ sw.1 with _gain := g },
              register8Write sw.2 _REGISTER_TIMING ((sw.2.timingReg &&& 0x03) ||| bits))
    else some (s, w)

/-- The integration-time half of `_update_range` (source lines
204-210): when the requested time differs, rewrite the timing register
keeping its gain bit.  `none` models the `KeyError` of the
`_INTEGRATION_TIME[integration_time]` lookup. -/
def urItStep (s1 : DriverState) (w1 : World) (integration_time : Option Nat) :
    Option (DriverState × World) :=
  match integration_time with
  | none => some (s1, w1)
  | some tv =>
    if tv ≠ s1._integration_time then
      match _INTEGRATION_TIME tv with
      | none => none
      | some p =>
        some ({ s1 with _integration_time := tv },
              register8Write w1 _REGISTER_TIMING ((w1.timingReg &&& 0x10) ||| p.hex))
    else some (s1, w1)

/-- `_update_range(gain, integration_time)`: the gain step, then the
integration-time step, then restoration of the prior power state.
`none` models a raised `KeyError` (invalid gain or integration key). -/
def TSL2561._update_range (s : DriverState) (w : World)
    (gain integration_time : Option Nat) : Option (DriverState × World) :=
  let was_active := s._active
  match urGainStep s w was_active gain with
  | none => none
  | some (s1, w1) =>
    match urItStep s1 w1 integration_time with
    | none => none
    | some (s2, w2) => some (TSL2561.active_restore s2 w2 was_active)

/-! ## Getters and setters (source lines 174-188) -/

/-- `gain()` with no argument. -/
def TSL2561.gain_get (s : DriverState) : Nat := s._gain

/-- `integration_time()` with no argument. -/
def TSL2561.integration_time_get (s : DriverState) : Nat := s._integration_time

/-- `gain(value)`: `none` models the raised `ValueError` for a value
other than 1 or 16 (or an internal `KeyError`). -/
def TSL2561.gain_set (s : DriverState) (w : World) (value : Nat) :
    Option (DriverState × World) :=
  if value ≠ 1 ∧ value ≠ 16 then none
  else TSL2561._update_range s w (some value) none

/-- `integration_time(value)`: `none` models the raised `ValueError`
for a value outside the `_INTEGRATION_TIME` keys. -/
def TSL2561.integration_time_set (s : DriverState) (w : World) (value : Nat) :
    Option (DriverState × World) :=
  match _INTEGRATION_TIME value with
  | none => none
  | some _ => TSL2561._update_range s w none (some value)

/-! ## `TSL2561._read` (source lines 136-149)

The `time.sleep` settle wait has no observable effect on the state and
is not modelled.  The gain/integration-time `is None` precondition of
line 138 is vacuous here: both fields are `Nat` because `__init__`
assigns them before any read can happen. -/

/-- One raw read with power management: activates an inactive device,
consumes the next channel pair from the reading stream, and restores the
prior power state. -/
def TSL2561._read (s : DriverState) (w : World) :
    (Nat × Nat) × DriverState × World :=
  let was_active := s._active
  let sw := if was_active ≠ some true then TSL2561.active_set s w true else (s, w)
  let pair := sw.2.readings sw.2.rIdx
  let w1 := { sw.2 with rIdx := sw.2.rIdx + 1 }
  let sw2 := TSL2561.active_restore sw.1 w1 was_active
  (pair, sw2.1, sw2.2)

/-! ## The HDR transition rule (source lines 217-231) -/

/-- Whether the tier defines an upper count bound and
`max(vnir, ir)` exceeds it (the "too hot" branch, line 223). -/
def tooHot (t : HdrTier) (vnir ir : Nat) : Bool :=
  match t.max with
  | some mx => max vnir ir > mx
  | none => false

/-- Whether the tier defines a lower count bound and `vnir` is below it
(the "too cold" branch, line 226). -/
def tooCold (t : HdrTier) (vnir : Nat) : Bool :=
  match t.min with
  | some mn => vnir < mn
  | none => false

/-- The decision the HDR loop body takes for one reading, with the
session already started at tier `h`. -/
inductive HdrDecision where
  /-- A `KeyError` on `_HDR[self._hdr]`. -/
  | err : HdrDecision
  /-- The `else: break` branch: the reading is accepted. -/
  | accept : HdrDecision
  /-- Continue at tier `h` after applying its gain/time: covers the
  thaw branch (same tier), too hot (`h+1`) and too cold (`h-1`). -/
  | move (h : ℤ) : HdrDecision
deriving DecidableEq, Repr

/-- The `elif` chain of the HDR loop for a started session.  The thaw
test (`vnir == 0 and ir == 0 and self._hdr != 0`) touches no table and
so precedes the `_HDR` lookup, exactly as in the source. -/
def hdrNext (h : ℤ) (vnir ir : Nat) : HdrDecision :=
  if vnir = 0 ∧ ir = 0 ∧ h ≠ 0 then .move h
  else
    match _HDR h with
    | none => .err
    | some t =>
      if tooHot t vnir ir then .move (h + 1)
      else if tooCold t vnir then .move (h - 1)
      else .accept

/-- The bottom-of-loop
`self._update_range(gain=_HDR[self._hdr]['gain'], integration_time=_HDR[self._hdr]['time'])`
(source line 232). -/
def applyTier (s : DriverState) (w : World) (h : ℤ) :
    Option (DriverState × World) :=
  match _HDR h with
  | none => none
  | some t => TSL2561._update_range s w (some t.gain) (some t.time)

/-- The `while True` loop of `read(hdr=True)` (source lines 215-234),
with fuel; `none` models fuel exhaustion or a raised `KeyError`.
Returns the accepted reading with the state at acceptance. -/
def hdrLoop (fuel : Nat) (s : DriverState) (w : World) :
    Option ((Nat × Nat) × DriverState × World) :=
  match fuel with
  | 0 => none
  | fuel + 1 =>
    let r := TSL2561._read s w
    let vnir := r.1.1
    let ir := r.1.2
    let s := r.2.1
    let w := r.2.2
    match s._hdr with
    | none =>
      let s1 := { s with _hdr := some 0 }
      match applyTier s1 w 0 with
      | none => none
      | some (s2, w2) => hdrLoop fuel s2 w2
    | some h =>
      match hdrNext h vnir ir with
      | .err => none
      | .accept => some ((vnir, ir), s, w)
      | .move h1 =>
        let s1 := { s with _hdr := some h1 }
        match applyTier s1 w h1 with
        | none => none
        | some (s2, w2) => hdrLoop fuel s2 w2

/-! ## `TSL2561.read` (source lines 213-257) -/

/-- What one `read` call produces for the caller. -/
inductive ReadResult where
  /-- The raw pair, when `raw=True`. -/
  | rawPair (vnir ir : Nat) : ReadResult
  /-- A numeric lux. -/
  | luxVal (q : ℚ) : ReadResult
  /-- The saturation sentinel (`_lux` returned `None`). -/
  | noReading : ReadResult
  /-- A raised exception escaping the call. -/
  | raised (e : PyError) : ReadResult
deriving DecidableEq, Repr

/-- Package a `luxCalc` result as a `ReadResult`. -/
def luxResult (r : Option (Option ℚ)) : ReadResult :=
  match r with
  | none => .raised .valueError
  | some none => .noReading
  | some (some q) => .luxVal q

/-- The tail of the non-HDR branch: raw pair or converted lux. -/
def readFinish (s : DriverState) (w : World) (vnir ir : Nat) (raw : Bool) :
    ReadResult × DriverState × World :=
  if raw then (.rawPair vnir ir, s, w)
  else (luxResult (luxCalc _LUX_SCALE s._gain s._integration_time vnir ir), s, w)

/-- `read(autogain, hdr, raw)`.  `none` models fuel exhaustion or an
internal `KeyError`; a raised `ValueError` that escapes the call is a
`ReadResult.raised` carrying the state at the raise. -/
def TSL2561.read (fuel : Nat) (s : DriverState) (w : World)
    (autogain hdr raw : Bool) : Option (ReadResult × DriverState × World) :=
  if hdr then
    match hdrLoop fuel s w with
    | none => none
    | some ((vnir, ir), s1, w1) =>
      let s2 := { s1 with last_vnir := some vnir, last_ir := some ir }
      some (luxResult (luxCalc _LUX_SCALE s2._gain s2._integration_time vnir ir), s2, w1)
  else
    let s0 := { s with _hdr := (none : Option ℤ) }
    let r := TSL2561._read s0 w
    let vnir := r.1.1
    let ir := r.1.2
    let s1 := r.2.1
    let w1 := r.2.2
    if autogain then
      if s1._integration_time = 0 then some (.raised .valueError, s1, w1)
      else
        match _INTEGRATION_TIME s1._integration_time with
        | none => none
        | some p =>
          let new_gain := if vnir < p.min then 16
                          else if vnir > p.max then 1
                          else s1._gain
          if new_gain ≠ s1._gain then
            match TSL2561.gain_set s1 w1 new_gain with
            | none => none
            | some (s2, w2) =>
              let r2 := TSL2561._read s2 w2
              some (readFinish r2.2.1 r2.2.2 r2.1.1 r2.1.2 raw)
          else some (readFinish s1 w1 vnir ir raw)
    else some (readFinish s1 w1 vnir ir raw)

/-! ## `TSL2561.threshold` (source lines 259-281) -/

/-- `threshold(cycles, min_value, max_value)`: get mode when every
argument is omitted, otherwise set mode.  The returned triple is
`some` only in get mode. -/
def TSL2561.threshold (s : DriverState) (w : World)
    (cycles : Option ℤ) (min_value max_value : Option Nat) :
    Option (ℤ × Nat × Nat) × DriverState × World :=
  if min_value = none ∧ max_value = none ∧ cycles = none then
    let mn := w.threshMinReg
    let mx := w.threshMaxReg
    let c : ℤ :=
      if w.interruptReg &&& _INTERRUPT_LEVEL = 0 then -1
      else ((w.interruptReg &&& 0x0f : Nat) : ℤ)
    (some (c, mn, mx), s, w)
  else
    let was_active := s._active
    let sw := TSL2561.active_set s w true
    let w1 :=
      match min_value with
      | some v => register16Write sw.2 _REGISTER_THRESHHOLD_MIN v
      | none => sw.2
    let w2 :=
      match max_value with
      | some v => register16Write w1 _REGISTER_THRESHHOLD_MAX v
      | none => w1
    let w3 :=
      match cycles with
      | some c =>
        if c = -1 then register8Write w2 _REGISTER_INTERRUPT _INTERRUPT_NONE
        else register8Write w2 _REGISTER_INTERRUPT
               ((min 15 (max 0 c)).toNat ||| _INTERRUPT_LEVEL)
      | none => w2
    let sw2 := TSL2561.active_restore sw.1 w3 was_active
    (none, sw2.1, sw2.2)

/-! ## `TSL2561.interrupt` (source lines 283-287) and `__init__`
(source lines 64-98) -/

/-- The constructed object: the attributes `__init__` assigns.  The
field `i2c` is the instance attribute `self.i2c`; `__init__` stores the
bus in `self._device` and never assigns `self.i2c`, so construction
leaves it `none` (attribute absent). -/
structure TSL2561Obj where
  address : Nat
  part_no : Nat
  rev_no : Nat
  powermode : Nat
  i2c : Option Unit
  state : DriverState
deriving DecidableEq, Repr

/-- `interrupt(value)`: `value` truthy or `None` raises `ValueError`;
otherwise the source evaluates `self.i2c`, which raises
`AttributeError` when the attribute is absent; with the attribute
present it would issue `writeto_mem(address, _CLEAR_BIT | _REGISTER_CONTROL, b'\x00')`,
returned here as the `(device address, memory address, byte)` triple. -/
def TSL2561.interrupt (o : TSL2561Obj) (value : Option Bool) :
    Except PyError (Nat × Nat × Nat) :=
  match value with
  | none => .error .valueError
  | some v =>
    if v then .error .valueError
    else
      match o.i2c with
      | none => .error .attributeError
      | some _ => .ok (o.address, _CLEAR_BIT ||| _REGISTER_CONTROL, 0x00)

/-- `__init__(powermode, address)`: `idReg` is the byte the ID-register
read returns.  Bad sensor id raises `RuntimeError`; a powermode outside
{LOWPOWER, STANDARD} raises `ValueError`; then the state is initialised
and `_update_range(gain=16, integration_time=13)` is applied. -/
def TSL2561.init (powermode address idReg : Nat) (w : World) :
    Except PyError (TSL2561Obj × World) :=
  let part_no := idReg >>> 4
  let rev_no := idReg &&& 0x0f
  if part_no &&& 0x01 = 0 then .error .runtimeError
  else if powermode ≠ TSL2561_LOWPOWER ∧ powermode ≠ TSL2561_STANDARD then
    .error .valueError
  else
    let s0 : DriverState :=
      { _gain := 1, _integration_time := 402, _hdr := none,
        _active := none, last_vnir := none, last_ir := none }
    let sw := TSL2561.active_set s0 w (powermode = TSL2561_STANDARD)
    match TSL2561._update_range sw.1 sw.2 (some 16) (some 13) with
    | none => .error .valueError
    | some (s1, w1) =>
      .ok ({ address := address, part_no := part_no, rev_no := rev_no,
             powermode := powermode, i2c := none, state := s1 }, w1)

/-! ## Shared lemmas about the lux converter -/

/-- The source's break-on-`ratio <= k` loop finds exactly the first
triple whose ceiling is ≥ the ratio. -/
theorem luxLookup_eq_specLookupBM (r : ℚ) :
    ∀ l, luxLookup r l = specLookupBM r l := by
  intro l
  induction l with
  | nil => rfl
  | cons a rest ih =>
    obtain ⟨k, b, m⟩ := a
    simp only [luxLookup, specLookupBM, ge_iff_le, ih]

/-- Claim C1: for every unsaturated raw pair read with a valid preset
integration time and gain, `_lux` equals the spec's 4.6 formula applied
to the profile's scale divisor, and at gain 1, 402 ms, vnir 1000,
ir 500 the result is the hand-computed reference value 14189/128
(= 110.8515625). -/
theorem lux_matches_spec_formula (gain t vnir ir : Nat) (p : IntegrationProfile)
    (_hg : gain = 1 ∨ gain = 16)
    (ht : t = 13 ∨ t = 101 ∨ t = 402)
    (hp : _INTEGRATION_TIME t = some p)
    (h0 : vnir ≤ p.clip) (h1 : ir ≤ p.clip) :
    luxCalc _LUX_SCALE gain t vnir ir =
      some (some (specLux _LUX_SCALE p.scale gain vnir ir)) ∧
    luxCalc _LUX_SCALE 1 402 1000 500 = some (some ((14189 : ℚ) / 128)) := by
  constructor
  · have ht0 : t ≠ 0 := by rcases ht with rfl | rfl | rfl <;> decide
    have hns : ¬ (vnir > p.clip ∨ ir > p.clip) := by omega
    simp only [luxCalc, if_neg ht0, hp, if_neg hns, specLux,
      luxLookup_eq_specLookupBM]
  · norm_num [luxCalc, _INTEGRATION_TIME, luxLookup, _LUX_SCALE]

/-- Witness for C1 at the spec's own scenario. -/
theorem lux_matches_spec_formula_witness :
    luxCalc _LUX_SCALE 1 402 1000 500 =
      some (some (specLux _LUX_SCALE 1024 1 1000 500)) ∧
    luxCalc _LUX_SCALE 1 402 1000 500 = some (some ((14189 : ℚ) / 128)) :=
  lux_matches_spec_formula 1 402 1000 500 ⟨0x02, 450, 65000, 500, 63000, 1024⟩
    (Or.inl rfl) (by decide) (by decide) (by decide) (by decide)

/-- Claim C3, counterexample: a raw pair exactly AT the clip value
(65000 = the 402 ms profile's clip, gain 1) yields a numeric lux, not
the "no reading" sentinel and not an error — the source's saturation
test is the strict `vnir > clip or ir > clip`. -/
theorem saturation_at_clip_counterexample :
    luxCalc _LUX_SCALE 1 402 65000 65000 ≠ some none ∧
    luxCalc _LUX_SCALE 1 402 65000 65000 ≠ none := by decide

/-- Claim C3, amended: for every raw pair in which either channel is
STRICTLY ABOVE the active profile's saturation clip, the converter
returns the "no reading" sentinel (not a numeric lux and not an
error), for every gain and valid preset integration time. -/
theorem saturation_above_clip (gain t vnir ir : Nat) (p : IntegrationProfile)
    (ht : t = 13 ∨ t = 101 ∨ t = 402)
    (hp : _INTEGRATION_TIME t = some p)
    (hs : p.clip < vnir ∨ p.clip < ir) :
    luxCalc _LUX_SCALE gain t vnir ir = some none := by
  have ht0 : t ≠ 0 := by rcases ht with rfl | rfl | rfl <;> decide
  simp only [luxCalc, if_neg ht0, hp, if_pos hs]

/-- Witness for the amended C3 just above the 402 ms clip. -/
theorem saturation_above_clip_witness :
    luxCalc _LUX_SCALE 1 402 65001 0 = some none :=
  saturation_above_clip 1 402 65001 0 ⟨0x02, 450, 65000, 500, 63000, 1024⟩
    (by decide) (by decide) (by decide)

/-! ## Shared projection lemmas about the stateful model -/

@[simp] theorem register8Write_readings (w : World) (r v : Nat) :
    (register8Write w r v).readings = w.readings := rfl

@[simp] theorem register8Write_rIdx (w : World) (r v : Nat) :
    (register8Write w r v).rIdx = w.rIdx := rfl

@[simp] theorem register16Write_readings (w : World) (r v : Nat) :
    (register16Write w r v).readings = w.readings := rfl

@[simp] theorem register16Write_rIdx (w : World) (r v : Nat) :
    (register16Write w r v).rIdx = w.rIdx := rfl

@[simp] theorem active_set_gain (s : DriverState) (w : World) (v : Bool) :
    (TSL2561.active_set s w v).1._gain = s._gain := by
  unfold TSL2561.active_set; split <;> rfl

@[simp] theorem active_set_it (s : DriverState) (w : World) (v : Bool) :
    (TSL2561.active_set s w v).1._integration_time = s._integration_time := by
  unfold TSL2561.active_set; split <;> rfl

@[simp] theorem active_set_hdr (s : DriverState) (w : World) (v : Bool) :
    (TSL2561.active_set s w v).1._hdr = s._hdr := by
  unfold TSL2561.active_set; split <;> rfl

@[simp] theorem active_set_last_vnir (s : DriverState) (w : World) (v : Bool) :
    (TSL2561.active_set s w v).1.last_vnir = s.last_vnir := by
  unfold TSL2561.active_set; split <;> rfl

@[simp] theorem active_set_last_ir (s : DriverState) (w : World) (v : Bool) :
    (TSL2561.active_set s w v).1.last_ir = s.last_ir := by
  unfold TSL2561.active_set; split <;> rfl

@[simp] theorem active_set_active (s : DriverState) (w : World) (v : Bool) :
    (TSL2561.active_set s w v).1._active = some v := by
  unfold TSL2561.active_set
  split
  · rfl
  · next h => simp only [ne_eq, not_not] at h; exact h.symm ▸ rfl

@[simp] theorem active_set_readings (s : DriverState) (w : World) (v : Bool) :
    (TSL2561.active_set s w v).2.readings = w.readings := by
  unfold TSL2561.active_set; split <;> rfl

@[simp] theorem active_set_rIdx (s : DriverState) (w : World) (v : Bool) :
    (TSL2561.active_set s w v).2.rIdx = w.rIdx := by
  unfold TSL2561.active_set; split <;> rfl

/-- Restoring the state that is currently held is a complete no-op:
no state change and no register write. -/
theorem active_restore_self (s : DriverState) (w : World) :
    TSL2561.active_restore s w s._active = (s, w) := by
  rcases h : s._active with _ | b
  · rfl
  · simp [TSL2561.active_restore, TSL2561.active_set, h]

@[simp] theorem active_restore_gain (s : DriverState) (w : World) (v : Option Bool) :
    (TSL2561.active_restore s w v).1._gain = s._gain := by
  cases v <;> simp [TSL2561.active_restore]

@[simp] theorem active_restore_it (s : DriverState) (w : World) (v : Option Bool) :
    (TSL2561.active_restore s w v).1._integration_time = s._integration_time := by
  cases v <;> simp [TSL2561.active_restore]

@[simp] theorem active_restore_hdr (s : DriverState) (w : World) (v : Option Bool) :
    (TSL2561.active_restore s w v).1._hdr = s._hdr := by
  cases v <;> simp [TSL2561.active_restore]

@[simp] theorem active_restore_last_vnir (s : DriverState) (w : World) (v : Option Bool) :
    (TSL2561.active_restore s w v).1.last_vnir = s.last_vnir := by
  cases v <;> simp [TSL2561.active_restore]

@[simp] theorem active_restore_last_ir (s : DriverState) (w : World) (v : Option Bool) :
    (TSL2561.active_restore s w v).1.last_ir = s.last_ir := by
  cases v <;> simp [TSL2561.active_restore]

@[simp] theorem active_restore_readings (s : DriverState) (w : World) (v : Option Bool) :
    (TSL2561.active_restore s w v).2.readings = w.readings := by
  cases v <;> simp [TSL2561.active_restore]

@[simp] theorem active_restore_rIdx (s : DriverState) (w : World) (v : Option Bool) :
    (TSL2561.active_restore s w v).2.rIdx = w.rIdx := by
  cases v <;> simp [TSL2561.active_restore]

/-- Restoring a boolean power state lands exactly there. -/
@[simp] theorem active_restore_some_active (s : DriverState) (w : World) (b : Bool) :
    (TSL2561.active_restore s w (some b)).1._active = some b := by
  simp [TSL2561.active_restore]

/-! ## Projections of `_read` -/

@[simp] theorem read_pair (s : DriverState) (w : World) :
    (TSL2561._read s w).1 = w.readings w.rIdx := by
  simp only [TSL2561._read]
  split <;> simp

@[simp] theorem read_rIdx (s : DriverState) (w : World) :
    (TSL2561._read s w).2.2.rIdx = w.rIdx + 1 := by
  simp only [TSL2561._read]
  split <;> simp

@[simp] theorem read_readings (s : DriverState) (w : World) :
    (TSL2561._read s w).2.2.readings = w.readings := by
  simp only [TSL2561._read]
  split <;> simp

@[simp] theorem read_gain (s : DriverState) (w : World) :
    (TSL2561._read s w).2.1._gain = s._gain := by
  simp only [TSL2561._read]
  split <;> simp

@[simp] theorem read_it (s : DriverState) (w : World) :
    (TSL2561._read s w).2.1._integration_time = s._integration_time := by
  simp only [TSL2561._read]
  split <;> simp

@[simp] theorem read_hdr (s : DriverState) (w : World) :
    (TSL2561._read s w).2.1._hdr = s._hdr := by
  simp only [TSL2561._read]
  split <;> simp

/-- `_read` restores the prior boolean power state (C7 will instantiate
this). -/
theorem read_active (s : DriverState) (w : World) (b : Bool)
    (h : s._active = some b) :
    (TSL2561._read s w).2.1._active = some b := by
  simp only [TSL2561._read]
  split <;> simp [h]

/-! ## Projections of `_update_range` -/

theorem urGainStep_fields (s : DriverState) (w : World) (wa : Option Bool)
    (g : Option Nat) (s1 : DriverState) (w1 : World)
    (h : urGainStep s w wa g = some (s1, w1)) :
    s1._hdr = s._hdr ∧ s1._integration_time = s._integration_time ∧
    s1.last_vnir = s.last_vnir ∧ s1.last_ir = s.last_ir ∧
    s1._gain = g.getD s._gain ∧ w1.rIdx = w.rIdx ∧ w1.readings = w.readings := by
  cases g with
  | none =>
    simp only [urGainStep, Option.some.injEq, Prod.mk.injEq] at h
    obtain ⟨rfl, rfl⟩ := h
    simp
  | some gv =>
    simp only [urGainStep] at h
    split at h
    · cases hb : gainBits gv with
      | none => rw [hb] at h; cases h
      | some bits =>
        rw [hb] at h
        simp only [Option.some.injEq, Prod.mk.injEq] at h
        obtain ⟨rfl, rfl⟩ := h
        refine ⟨?_, ?_, ?_, ?_, ?_, ?_, ?_⟩ <;> (try split) <;> simp
    · simp only [Option.some.injEq, Prod.mk.injEq] at h
      obtain ⟨rfl, rfl⟩ := h
      next hne =>
      simp only [ne_eq, not_not] at hne
      simp [hne]

theorem urItStep_fields (s1 : DriverState) (w1 : World)
    (it : Option Nat) (s2 : DriverState) (w2 : World)
    (h : urItStep s1 w1 it = some (s2, w2)) :
    s2._hdr = s1._hdr ∧ s2._gain = s1._gain ∧
    s2.last_vnir = s1.last_vnir ∧ s2.last_ir = s1.last_ir ∧
    s2._integration_time = it.getD s1._integration_time ∧
    w2.rIdx = w1.rIdx ∧ w2.readings = w1.readings := by
  cases it with
  | none =>
    simp only [urItStep, Option.some.injEq, Prod.mk.injEq] at h
    obtain ⟨rfl, rfl⟩ := h
    simp
  | some tv =>
    simp only [urItStep] at h
    split at h
    · cases hp : _INTEGRATION_TIME tv with
      | none => rw [hp] at h; cases h
      | some p =>
        rw [hp] at h
        simp only [Option.some.injEq, Prod.mk.injEq] at h
        obtain ⟨rfl, rfl⟩ := h
        simp
    · simp only [Option.some.injEq, Prod.mk.injEq] at h
      obtain ⟨rfl, rfl⟩ := h
      next hne =>
      simp only [ne_eq, not_not] at hne
      simp [hne]

/-- What a successful `_update_range` does to the non-power fields:
the HDR session and cached reading are untouched, gain and
integration time land on the requested values, and no channel read
happens. -/
theorem ur_fields (s : DriverState) (w : World) (g it : Option Nat)
    (s' : DriverState) (w' : World)
    (h : TSL2561._update_range s w g it = some (s', w')) :
    s'._hdr = s._hdr ∧ s'.last_vnir = s.last_vnir ∧ s'.last_ir = s.last_ir ∧
    s'._gain = g.getD s._gain ∧
    s'._integration_time = it.getD s._integration_time ∧
    w'.rIdx = w.rIdx ∧ w'.readings = w.readings := by
  simp only [TSL2561._update_range] at h
  cases h1 : urGainStep s w s._active g with
  | none => rw [h1] at h; cases h
  | some p1 =>
    obtain ⟨s1, w1⟩ := p1
    rw [h1] at h
    simp only [] at h
    cases h2 : urItStep s1 w1 it with
    | none => rw [h2] at h; cases h
    | some p2 =>
      obtain ⟨s2, w2⟩ := p2
      rw [h2] at h
      simp only [Option.some.injEq] at h
      have hs : (TSL2561.active_restore s2 w2 s._active).1 = s' := by rw [h]
      have hw : (TSL2561.active_restore s2 w2 s._active).2 = w' := by rw [h]
      clear h
      obtain ⟨e1, e2, e3, e4, e5, e6, e7⟩ := urGainStep_fields s w s._active g s1 w1 h1
      obtain ⟨f1, f2, f3, f4, f5, f6, f7⟩ := urItStep_fields s1 w1 it s2 w2 h2
      subst hs hw
      refine ⟨?_, ?_, ?_, ?_, ?_, ?_, ?_⟩ <;> simp [*]

/-- A successful `_update_range` restores the prior boolean power
state. -/
theorem ur_active (s : DriverState) (w : World) (g it : Option Nat)
    (b : Bool) (s' : DriverState) (w' : World)
    (hb : s._active = some b)
    (h : TSL2561._update_range s w g it = some (s', w')) :
    s'._active = some b := by
  simp only [TSL2561._update_range] at h
  cases h1 : urGainStep s w s._active g with
  | none => rw [h1] at h; cases h
  | some p1 =>
    obtain ⟨s1, w1⟩ := p1
    rw [h1] at h
    simp only [] at h
    cases h2 : urItStep s1 w1 it with
    | none => rw [h2] at h; cases h
    | some p2 =>
      obtain ⟨s2, w2⟩ := p2
      rw [h2] at h
      simp only [Option.some.injEq] at h
      have hs : (TSL2561.active_restore s2 w2 s._active).1 = s' := by rw [h]
      rw [← hs, hb]
      simp

/-- Requesting the current gain (and no integration-time change) is a
complete no-op. -/
theorem ur_gain_idem (s : DriverState) (w : World) :
    TSL2561._update_range s w (some s._gain) none = some (s, w) := by
  unfold TSL2561._update_range urGainStep urItStep
  simp [active_restore_self]

/-- Requesting the current integration time (and no gain change) is a
complete no-op. -/
theorem ur_it_idem (s : DriverState) (w : World) :
    TSL2561._update_range s w none (some s._integration_time) = some (s, w) := by
  unfold TSL2561._update_range urGainStep urItStep
  simp [active_restore_self]

/-- `_update_range` succeeds whenever the requested gain is 1 or 16 and
the requested integration time is a table key (or either is absent). -/
theorem ur_total (s : DriverState) (w : World) (g it : Option Nat)
    (hg : g = none ∨ g = some 1 ∨ g = some 16)
    (hit : it = none ∨ ∃ tv p, it = some tv ∧ _INTEGRATION_TIME tv = some p) :
    ∃ s' w', TSL2561._update_range s w g it = some (s', w') := by
  have hstep1 : (urGainStep s w s._active g).isSome := by
    rcases hg with rfl | rfl | rfl
    · rfl
    · by_cases h1 : (1 : Nat) = s._gain
      · simp only [urGainStep]; rw [if_neg (not_not_intro h1)]; rfl
      · simp only [urGainStep]; rw [if_pos h1]; simp [gainBits]
    · by_cases h1 : (16 : Nat) = s._gain
      · simp only [urGainStep]; rw [if_neg (not_not_intro h1)]; rfl
      · simp only [urGainStep]; rw [if_pos h1]; simp [gainBits]
  obtain ⟨⟨s1, w1⟩, h1⟩ := Option.isSome_iff_exists.mp hstep1
  have hstep2 : (urItStep s1 w1 it).isSome := by
    rcases hit with rfl | ⟨tv, p, rfl, hp⟩
    · rfl
    · by_cases h2 : tv = s1._integration_time
      · simp only [urItStep]; rw [if_neg (not_not_intro h2)]; rfl
      · simp only [urItStep]; rw [if_pos h2, hp]; rfl
  obtain ⟨⟨s2, w2⟩, h2⟩ := Option.isSome_iff_exists.mp hstep2
  refine ⟨(TSL2561.active_restore s2 w2 s._active).1,
    (TSL2561.active_restore s2 w2 s._active).2, ?_⟩
  simp only [TSL2561._update_range]
  rw [h1]
  simp only []
  rw [h2]

/-! ## Concrete fixtures used by the witnesses -/

/-- A device whose channel reads always return (1000, 1000). -/
def sampleWorld : World :=
  { timingReg := 0
    threshMinReg := 0
    threshMaxReg := 0
    interruptReg := 0
    readings := fun _ => (1000, 1000)
    rIdx := 0
    writes := [] }

/-- A post-construction driver state: gain 16, 402 ms, HDR session at
tier 0, device active. -/
def sampleState : DriverState :=
  { _gain := 16
    _integration_time := 402
    _hdr := some 0
    _active := some true
    last_vnir := none
    last_ir := none }

/-- Claim C6: calling the gain setter with the current gain, or the
integration-time setter with the current integration time, performs
zero register writes and leaves the driver state unchanged — the
result is exactly the input state and the input world (same write
log). -/
theorem setter_idempotent (s : DriverState) (w : World)
    (hg : s._gain = 1 ∨ s._gain = 16)
    (ht : (_INTEGRATION_TIME s._integration_time).isSome) :
    TSL2561.gain_set s w s._gain = some (s, w) ∧
    TSL2561.integration_time_set s w s._integration_time = some (s, w) := by
  constructor
  · have hv : ¬(s._gain ≠ 1 ∧ s._gain ≠ 16) := by
      rcases hg with h | h <;> simp [h]
    simp only [TSL2561.gain_set, if_neg hv]
    exact ur_gain_idem s w
  · cases hp : _INTEGRATION_TIME s._integration_time with
    | none => rw [hp] at ht; cases ht
    | some p =>
      simp only [TSL2561.integration_time_set, hp]
      exact ur_it_idem s w

/-- Witness for C6 on the concrete fixture (gain 16, 402 ms). -/
theorem setter_idempotent_witness :
    TSL2561.gain_set sampleState sampleWorld 16 = some (sampleState, sampleWorld) ∧
    TSL2561.integration_time_set sampleState sampleWorld 402 =
      some (sampleState, sampleWorld) :=
  setter_idempotent sampleState sampleWorld (Or.inr rfl) (by decide)

/-- Claim C7: every operation that temporarily toggles the power state
— the raw read (may activate an inactive device), a gain/timing change
(deactivates an active device before a gain change), and threshold
configuration in set mode (activates the device) — restores the prior
active/inactive state before returning. -/
theorem power_state_restored (s : DriverState) (w : World) (b : Bool)
    (hb : s._active = some b) :
    (TSL2561._read s w).2.1._active = some b ∧
    (∀ g it s' w', TSL2561._update_range s w g it = some (s', w') →
      s'._active = some b) ∧
    (∀ c mn mx, ¬(mn = none ∧ mx = none ∧ c = none) →
      (TSL2561.threshold s w c mn mx).2.1._active = some b) := by
  refine ⟨read_active s w b hb,
    fun g it s' w' h => ur_active s w g it b s' w' hb h, ?_⟩
  intro c mn mx hset
  simp only [TSL2561.threshold, if_neg hset, hb]
  simp

/-- Witness for C7: an active device stays active across a raw read, a
gain-and-timing change, and a threshold write. -/
theorem power_state_restored_witness :
    (TSL2561._read sampleState sampleWorld).2.1._active = some true ∧
    ((TSL2561._update_range sampleState sampleWorld (some 1) (some 101)).map
      (fun x => x.1._active) = some (some true)) ∧
    (TSL2561.threshold sampleState sampleWorld (some 3) none none).2.1._active =
      some true := by
  refine ⟨(power_state_restored sampleState sampleWorld true rfl).1, ?_, ?_⟩
  · cases hu : TSL2561._update_range sampleState sampleWorld (some 1) (some 101) with
    | none =>
      obtain ⟨s', w', hsome⟩ := ur_total sampleState sampleWorld (some 1) (some 101)
        (Or.inr (Or.inl rfl)) (Or.inr ⟨101, _, rfl, rfl⟩)
      rw [hu] at hsome
      cases hsome
    | some x =>
      have := (power_state_restored sampleState sampleWorld true rfl).2.1
        (some 1) (some 101) x.1 x.2 (by rw [hu])
      simp [this]
  · exact (power_state_restored sampleState sampleWorld true rfl).2.2
      (some 3) none none (by simp)

/-! ## HDR search lemmas -/

/-- Applying a tier's operating point never touches the session index. -/
theorem applyTier_hdr (s : DriverState) (w : World) (hidx : ℤ)
    (s2 : DriverState) (w2 : World)
    (h : applyTier s w hidx = some (s2, w2)) : s2._hdr = s._hdr := by
  unfold applyTier at h
  cases ht : _HDR hidx with
  | none => rw [ht] at h; cases h
  | some t =>
    rw [ht] at h
    simp only [] at h
    exact (ur_fields _ _ _ _ _ _ h).1

/-- The transition rule at tier 0: no thaw hold (the session index is
0) and no lower bound. -/
theorem hdrNext_zero (vnir ir : Nat) :
    hdrNext 0 vnir ir =
      if max vnir ir > 62258 then HdrDecision.move 1 else .accept := by
  simp [hdrNext, _HDR, tooHot, tooCold]

/-- The transition rule at tier 1. -/
theorem hdrNext_one (vnir ir : Nat) :
    hdrNext 1 vnir ir =
      if vnir = 0 ∧ ir = 0 then HdrDecision.move 1
      else if max vnir ir > 35318 then .move 2
      else if vnir < 1859 then .move 0 else .accept := by
  simp [hdrNext, _HDR, tooHot, tooCold]

/-- The transition rule at tier 2. -/
theorem hdrNext_two (vnir ir : Nat) :
    hdrNext 2 vnir ir =
      if vnir = 0 ∧ ir = 0 then HdrDecision.move 2
      else if max vnir ir > 62258 then .move 3
      else if vnir < 3277 then .move 1 else .accept := by
  simp [hdrNext, _HDR, tooHot, tooCold]

/-- The transition rule at tier 3. -/
theorem hdrNext_three (vnir ir : Nat) :
    hdrNext 3 vnir ir =
      if vnir = 0 ∧ ir = 0 then HdrDecision.move 3
      else if max vnir ir > 4876 then .move 4
      else if vnir < 252 then .move 2 else .accept := by
  simp [hdrNext, _HDR, tooHot, tooCold]

/-- The transition rule at tier 4. -/
theorem hdrNext_four (vnir ir : Nat) :
    hdrNext 4 vnir ir =
      if vnir = 0 ∧ ir = 0 then HdrDecision.move 4
      else if max vnir ir > 35318 then .move 5
      else if vnir < 1859 then .move 3 else .accept := by
  simp [hdrNext, _HDR, tooHot, tooCold]

/-- The transition rule at tier 5: no upper bound. -/
theorem hdrNext_five (vnir ir : Nat) :
    hdrNext 5 vnir ir =
      if vnir = 0 ∧ ir = 0 then HdrDecision.move 5
      else if vnir < 252 then .move 4 else .accept := by
  simp [hdrNext, _HDR, tooHot, tooCold]

/-- The HDR transition rule never leaves 0..5 when it starts there:
tier 0 has no lower bound so no decrement fires at 0, and tier 5 has
no upper bound so no increment fires at 5. -/
theorem hdrNext_move_range (h h1 : ℤ) (vnir ir : Nat)
    (hlo : 0 ≤ h) (hhi : h ≤ 5)
    (hm : hdrNext h vnir ir = HdrDecision.move h1) :
    0 ≤ h1 ∧ h1 ≤ 5 := by
  have h05 : h = 0 ∨ h = 1 ∨ h = 2 ∨ h = 3 ∨ h = 4 ∨ h = 5 := by omega
  rcases h05 with rfl | rfl | rfl | rfl | rfl | rfl
  · rw [hdrNext_zero] at hm
    repeat' split at hm
    all_goals (try simp_all)
    all_goals omega
  · rw [hdrNext_one] at hm
    repeat' split at hm
    all_goals (try simp_all)
    all_goals omega
  · rw [hdrNext_two] at hm
    repeat' split at hm
    all_goals (try simp_all)
    all_goals omega
  · rw [hdrNext_three] at hm
    repeat' split at hm
    all_goals (try simp_all)
    all_goals omega
  · rw [hdrNext_four] at hm
    repeat' split at hm
    all_goals (try simp_all)
    all_goals omega
  · rw [hdrNext_five] at hm
    repeat' split at hm
    all_goals (try simp_all)
    all_goals omega

/-- The invariant "the session index, when started, is in 0..5". -/
def tierOk (o : Option ℤ) : Prop := ∀ h, o = some h → 0 ≤ h ∧ h ≤ 5

/-- Every state the HDR loop can return preserves `tierOk`. -/
theorem hdrLoop_tierOk (fuel : Nat) :
    ∀ s w out, tierOk s._hdr → hdrLoop fuel s w = some out →
      tierOk out.2.1._hdr := by
  induction fuel with
  | zero => intro s w out _ h; cases h
  | succ n ih =>
    intro s w out hok h
    simp only [hdrLoop] at h
    rw [read_hdr] at h
    cases hh : s._hdr with
    | none =>
      rw [hh] at h
      simp only [] at h
      cases ha : applyTier { (TSL2561._read s w).2.1 with _hdr := some 0 }
          (TSL2561._read s w).2.2 0 with
      | none => rw [ha] at h; cases h
      | some p =>
        obtain ⟨s2, w2⟩ := p
        rw [ha] at h
        simp only [] at h
        refine ih s2 w2 out ?_ h
        have := applyTier_hdr _ _ _ _ _ ha
        intro t ht
        rw [this] at ht
        simp only [DriverState.mk.injEq] at ht
        have h0 : (some 0 : Option ℤ) = some t := by
          simpa using ht
        cases h0
        exact ⟨le_refl 0, by omega⟩
    | some hidx =>
      rw [hh] at h
      simp only [] at h
      have hrange := hok hidx hh
      cases hd : hdrNext hidx (TSL2561._read s w).1.1 (TSL2561._read s w).1.2 with
      | err => rw [hd] at h; cases h
      | accept =>
        rw [hd] at h
        simp only [Option.some.injEq] at h
        rw [← h]
        intro t ht
        simp only [read_hdr, hh, Option.some.injEq] at ht
        subst ht
        exact hrange
      | move h1 =>
        rw [hd] at h
        simp only [] at h
        cases ha : applyTier { (TSL2561._read s w).2.1 with _hdr := some h1 }
            (TSL2561._read s w).2.2 h1 with
        | none => rw [ha] at h; cases h
        | some p =>
          obtain ⟨s2, w2⟩ := p
          rw [ha] at h
          simp only [] at h
          refine ih s2 w2 out ?_ h
          have hmr := hdrNext_move_range hidx h1 _ _ hrange.1 hrange.2 hd
          have := applyTier_hdr _ _ _ _ _ ha
          intro t ht
          rw [this] at ht
          have h0 : (some h1 : Option ℤ) = some t := by
            simpa using ht
          cases h0
          exact hmr

/-- Claim C9: throughout every HDR read the tier index stays in 0..5:
every single transition from an in-range tier lands in range (tier 0
defines no lower bound, tier 5 no upper bound), and consequently every
state the HDR loop returns satisfies the 0..5 invariant, for every
sequence of raw readings. -/
theorem hdr_tier_stays_in_range :
    (∀ h vnir ir h1, 0 ≤ h → h ≤ 5 →
      hdrNext h vnir ir = HdrDecision.move h1 → 0 ≤ h1 ∧ h1 ≤ 5) ∧
    (∀ fuel s w out, tierOk s._hdr → hdrLoop fuel s w = some out →
      tierOk out.2.1._hdr) :=
  ⟨fun h vnir ir h1 hlo hhi hm => hdrNext_move_range h h1 vnir ir hlo hhi hm,
   fun fuel s w out hok hl => hdrLoop_tierOk fuel s w out hok hl⟩

/-- Witness for C9: the too-hot transition out of tier 0 lands at
tier 1 ∈ 0..5, and one concrete loop run preserves the invariant. -/
theorem hdr_tier_stays_in_range_witness :
    ((0 : ℤ) ≤ 1 ∧ (1 : ℤ) ≤ 5) ∧
    ((hdrLoop 1 sampleState sampleWorld).elim True
      (fun out => tierOk out.2.1._hdr)) := by
  refine ⟨hdr_tier_stays_in_range.1 0 70000 0 1 (by decide) (by decide)
    (by rw [hdrNext_zero]; decide), ?_⟩
  cases hl : hdrLoop 1 sampleState sampleWorld with
  | none => trivial
  | some out =>
    exact hdr_tier_stays_in_range.2 1 sampleState sampleWorld out
      (by intro t ht; simp [sampleState] at ht; omega) hl

/-- Claim C4: an HDR read whose session is at tier 0, with every raw
reading within tier 0's bounds (both channels at or below 62258),
accepts after exactly one raw read. -/
theorem hdr_tier0_single_read (fuel : Nat) (s : DriverState) (w : World)
    (h0 : s._hdr = some 0)
    (hb : ∀ n, (w.readings n).1 ≤ 62258 ∧ (w.readings n).2 ≤ 62258)
    (hf : 1 ≤ fuel) :
    ∃ res s' w', TSL2561.read fuel s w false true false = some (res, s', w') ∧
      w'.rIdx = w.rIdx + 1 := by
  obtain ⟨n, rfl⟩ : ∃ n, fuel = n + 1 := ⟨fuel - 1, by omega⟩
  have hacc : hdrNext 0 (TSL2561._read s w).1.1 (TSL2561._read s w).1.2 =
      HdrDecision.accept := by
    rw [hdrNext_zero, if_neg]
    rw [read_pair]
    have h1 := (hb w.rIdx).1
    have h2 := (hb w.rIdx).2
    simp only [gt_iff_lt, not_lt, sup_le_iff]
    exact ⟨h1, h2⟩
  have hloop : hdrLoop (n + 1) s w =
      some (((TSL2561._read s w).1.1, (TSL2561._read s w).1.2),
        (TSL2561._read s w).2.1, (TSL2561._read s w).2.2) := by
    simp only [hdrLoop]
    rw [read_hdr, h0]
    simp only []
    rw [hacc]
  simp only [TSL2561.read, if_pos]
  rw [hloop]
  simp only []
  exact ⟨_, _, _, rfl, by simp⟩

/-- Witness for C4 at the concrete fixture: a single in-bounds reading
is accepted at tier 0 in one read. -/
theorem hdr_tier0_single_read_witness :
    ∃ res s' w', TSL2561.read 1 sampleState sampleWorld false true false =
      some (res, s', w') ∧ w'.rIdx = sampleWorld.rIdx + 1 :=
  hdr_tier0_single_read 1 sampleState sampleWorld rfl
    (fun n => by simp [sampleWorld]) (by decide)

/-! ## Lemmas about the non-HDR read path -/

@[simp] theorem readFinish_state (s : DriverState) (w : World) (v i : Nat) (raw : Bool) :
    (readFinish s w v i raw).2.1 = s := by
  unfold readFinish; split <;> rfl

@[simp] theorem readFinish_world (s : DriverState) (w : World) (v i : Nat) (raw : Bool) :
    (readFinish s w v i raw).2.2 = w := by
  unfold readFinish; split <;> rfl

/-- `readFinish` as an explicit triple. -/
theorem readFinish_eq (s : DriverState) (w : World) (v i : Nat) (raw : Bool) :
    readFinish s w v i raw =
      ((if raw then ReadResult.rawPair v i
        else luxResult (luxCalc _LUX_SCALE s._gain s._integration_time v i)),
       s, w) := by
  unfold readFinish; split <;> simp

/-- What a successful `gain(value)` call does to the driver state and
the reading stream. -/
theorem gain_set_fields (s : DriverState) (w : World) (v : Nat)
    (s' : DriverState) (w' : World)
    (h : TSL2561.gain_set s w v = some (s', w')) :
    s'._hdr = s._hdr ∧ s'._gain = v ∧
    s'._integration_time = s._integration_time ∧
    w'.rIdx = w.rIdx ∧ w'.readings = w.readings := by
  unfold TSL2561.gain_set at h
  split at h
  · cases h
  · obtain ⟨a1, a2, a3, a4, a5, a6, a7⟩ := ur_fields _ _ _ _ _ _ h
    exact ⟨a1, by simpa using a4, by simpa using a5, a6, a7⟩

/-- Claim C2, counterexample: two HDR reads that differ only in the
session state held before the call (tier 0 versus uninitialized)
perform different numbers of raw reads on the same device — so the
session state is NOT reset to uninitialized at the start of every
`read(hdr=true)` call: a retained tier changes the call's behavior. -/
theorem hdr_reset_counterexample :
    (TSL2561.read 2 sampleState sampleWorld false true false).map
        (fun x => x.2.2.rIdx) = some 1 ∧
    (TSL2561.read 2 { sampleState with _hdr := none } sampleWorld false true false).map
        (fun x => x.2.2.rIdx) = some 2 := by decide

/-- Claim C2, amended: every `read(hdr=false)` call leaves the HDR
session state uninitialized, but `read(hdr=true)` does NOT reset it at
the start: a session already at tier `h` resumes there — the first
reading is judged against tier `h`'s bounds and, when accepted, the
call ends after one raw read with the session still at `h`. -/
theorem hdr_session_lifecycle :
    (∀ fuel s w ag raw res s' w',
      TSL2561.read fuel s w ag false raw = some (res, s', w') →
      s'._hdr = none) ∧
    (∀ fuel s w h res s' w', s._hdr = some h →
      hdrNext h (w.readings w.rIdx).1 (w.readings w.rIdx).2 =
        HdrDecision.accept →
      1 ≤ fuel →
      TSL2561.read fuel s w false true false = some (res, s', w') →
      s'._hdr = some h ∧ w'.rIdx = w.rIdx + 1) := by
  constructor
  · intro fuel s w ag raw res s' w' hr
    simp only [TSL2561.read, Bool.false_eq_true, if_false, read_it, read_gain,
      read_pair, read_hdr] at hr
    cases ag with
    | false =>
      simp only [Bool.false_eq_true, if_false, Option.some.injEq] at hr
      have h2 := congrArg (fun x => x.2.1._hdr) hr
      simp only [readFinish_state, read_hdr] at h2
      exact h2.symm
    | true =>
      simp only [if_true] at hr
      split at hr
      · simp only [Option.some.injEq, Prod.mk.injEq] at hr
        obtain ⟨-, h2, -⟩ := hr
        rw [← h2, read_hdr]
      · cases hp : _INTEGRATION_TIME s._integration_time with
        | none => rw [hp] at hr; cases hr
        | some p =>
          rw [hp] at hr
          simp only [] at hr
          by_cases hng : (if (w.readings w.rIdx).1 < p.min then 16
              else if (w.readings w.rIdx).1 > p.max then 1 else s._gain) ≠ s._gain
          · rw [if_pos hng] at hr
            cases hgs : TSL2561.gain_set (TSL2561._read { s with _hdr := none } w).2.1
                (TSL2561._read { s with _hdr := none } w).2.2
                (if (w.readings w.rIdx).1 < p.min then 16
                 else if (w.readings w.rIdx).1 > p.max then 1 else s._gain) with
            | none => rw [hgs] at hr; cases hr
            | some pq =>
              obtain ⟨s2, w2⟩ := pq
              rw [hgs] at hr
              simp only [readFinish_eq, Option.some.injEq, Prod.mk.injEq] at hr
              obtain ⟨-, h2, -⟩ := hr
              rw [← h2]
              rw [read_hdr, (gain_set_fields _ _ _ _ _ hgs).1, read_hdr]
          · rw [if_neg hng] at hr
            simp only [readFinish_eq, Option.some.injEq, Prod.mk.injEq] at hr
            obtain ⟨-, h2, -⟩ := hr
            rw [← h2]
            rw [read_hdr]
  · intro fuel s w h res s' w' hh hacc hf hr
    obtain ⟨n, rfl⟩ : ∃ n, fuel = n + 1 := ⟨fuel - 1, by omega⟩
    have hacc1 : hdrNext h (TSL2561._read s w).1.1 (TSL2561._read s w).1.2 =
        HdrDecision.accept := by
      rw [read_pair]; exact hacc
    have hloop : hdrLoop (n + 1) s w =
        some (((TSL2561._read s w).1.1, (TSL2561._read s w).1.2),
          (TSL2561._read s w).2.1, (TSL2561._read s w).2.2) := by
      simp only [hdrLoop]
      rw [read_hdr, hh]
      simp only []
      rw [hacc1]
    simp only [TSL2561.read, if_pos] at hr
    rw [hloop] at hr
    simp only [Option.some.injEq, Prod.mk.injEq] at hr
    obtain ⟨-, h2, h3⟩ := hr
    constructor
    · rw [← h2]
      have : ({ (TSL2561._read s w).2.1 with
          last_vnir := some (TSL2561._read s w).1.1,
          last_ir := some (TSL2561._read s w).1.2 })._hdr =
          (TSL2561._read s w).2.1._hdr := rfl
      rw [this, read_hdr, hh]
    · rw [← h3, read_rIdx]

/-- Witness for the amended C2: a non-HDR read on the fixture ends with
the session uninitialized, and an HDR read resumes the tier-0 session
in one read. -/
theorem hdr_session_lifecycle_witness :
    ((TSL2561.read 1 sampleState sampleWorld false false false).elim True
      (fun x => x.2.1._hdr = none)) ∧
    ((TSL2561.read 1 sampleState sampleWorld false true false).elim True
      (fun x => x.2.1._hdr = some 0 ∧ x.2.2.rIdx = sampleWorld.rIdx + 1)) := by
  constructor
  · cases hr : TSL2561.read 1 sampleState sampleWorld false false false with
    | none => trivial
    | some x =>
      exact hdr_session_lifecycle.1 1 sampleState sampleWorld false false
        x.1 x.2.1 x.2.2 (by rw [hr])
  · cases hr : TSL2561.read 1 sampleState sampleWorld false true false with
    | none => trivial
    | some x =>
      exact hdr_session_lifecycle.2 1 sampleState sampleWorld 0
        x.1 x.2.1 x.2.2 rfl (by decide) (by decide) (by rw [hr])

/-- A valid gain request always succeeds. -/
theorem gain_set_total (s : DriverState) (w : World) (v : Nat)
    (hv : v = 1 ∨ v = 16) :
    ∃ s' w', TSL2561.gain_set s w v = some (s', w') := by
  unfold TSL2561.gain_set
  rw [if_neg (by rcases hv with rfl | rfl <;> simp)]
  refine ur_total s w (some v) none ?_ (Or.inl rfl)
  rcases hv with rfl | rfl
  · exact Or.inr (Or.inl rfl)
  · exact Or.inr (Or.inr rfl)

/-- Symbolic evaluation of the auto-gain read: with `g0` the gain the
threshold rule selects from the first reading, the call re-reads
through a gain change exactly when `g0` differs from the current gain,
and otherwise returns the first reading's conversion directly. -/
theorem read_autogain_eq (fuel : Nat) (s : DriverState) (w : World) (raw : Bool)
    (p : IntegrationProfile) (g0 : Nat)
    (ht0 : s._integration_time ≠ 0)
    (hp : _INTEGRATION_TIME s._integration_time = some p)
    (hg0 : (if (w.readings w.rIdx).1 < p.min then 16
            else if (w.readings w.rIdx).1 > p.max then 1 else s._gain) = g0) :
    (∀ _ : g0 ≠ s._gain, ∀ s2 w2,
      TSL2561.gain_set (TSL2561._read { s with _hdr := none } w).2.1
        (TSL2561._read { s with _hdr := none } w).2.2 g0 = some (s2, w2) →
      TSL2561.read fuel s w true false raw =
        some (readFinish (TSL2561._read s2 w2).2.1 (TSL2561._read s2 w2).2.2
          (w2.readings w2.rIdx).1 (w2.readings w2.rIdx).2 raw)) ∧
    (g0 = s._gain →
      TSL2561.read fuel s w true false raw =
        some (readFinish (TSL2561._read { s with _hdr := none } w).2.1
          (TSL2561._read { s with _hdr := none } w).2.2
          (w.readings w.rIdx).1 (w.readings w.rIdx).2 raw)) := by
  constructor
  · intro hne s2 w2 hgs
    simp only [TSL2561.read, Bool.false_eq_true, if_false, if_true, read_it,
      read_gain, read_pair, read_hdr]
    rw [if_neg ht0, hp]
    simp only []
    rw [hg0, if_pos hne, hgs]
  · intro heq
    simp only [TSL2561.read, Bool.false_eq_true, if_false, if_true, read_it,
      read_gain, read_pair, read_hdr]
    rw [if_neg ht0, hp]
    simp only []
    rw [hg0, if_neg (not_not_intro heq)]

/-- Claim C5: in an auto-gain read with a valid preset integration
time, the gain becomes 16 when the first vnir reading is below the
profile's low threshold, 1 when above the high threshold, and is left
unchanged otherwise; a second raw read happens exactly when the gain
changed (one read otherwise, two reads at most, no further
iteration). -/
theorem autogain_single_correction (fuel : Nat) (s : DriverState) (w : World)
    (raw : Bool) (p : IntegrationProfile)
    (_hg : s._gain = 1 ∨ s._gain = 16)
    (ht0 : s._integration_time ≠ 0)
    (hp : _INTEGRATION_TIME s._integration_time = some p) :
    ∃ res s' w', TSL2561.read fuel s w true false raw = some (res, s', w') ∧
      s'._gain = (if (w.readings w.rIdx).1 < p.min then 16
                  else if (w.readings w.rIdx).1 > p.max then 1 else s._gain) ∧
      w'.rIdx = w.rIdx +
        (if (if (w.readings w.rIdx).1 < p.min then 16
             else if (w.readings w.rIdx).1 > p.max then 1 else s._gain) = s._gain
         then 1 else 2) := by
  by_cases hne : (if (w.readings w.rIdx).1 < p.min then 16
      else if (w.readings w.rIdx).1 > p.max then 1 else s._gain) = s._gain
  · have heq := (read_autogain_eq fuel s w raw p s._gain ht0 hp hne).2 rfl
    rw [readFinish_eq] at heq
    refine ⟨_, _, _, heq, ?_, ?_⟩
    · simp only [read_gain]
      exact hne.symm
    · simp only [read_rIdx, if_pos hne]
  · have hNG : (if (w.readings w.rIdx).1 < p.min then 16
        else if (w.readings w.rIdx).1 > p.max then 1 else s._gain) = 1 ∨
        (if (w.readings w.rIdx).1 < p.min then 16
        else if (w.readings w.rIdx).1 > p.max then 1 else s._gain) = 16 := by
      by_cases h1 : (w.readings w.rIdx).1 < p.min
      · right; rw [if_pos h1]
      · by_cases h2 : (w.readings w.rIdx).1 > p.max
        · left; rw [if_neg h1, if_pos h2]
        · exact absurd (by rw [if_neg h1, if_neg h2]) hne
    obtain ⟨s2, w2, hgs⟩ := gain_set_total
      (TSL2561._read { s with _hdr := none } w).2.1
      (TSL2561._read { s with _hdr := none } w).2.2 _ hNG
    have heq := (read_autogain_eq fuel s w raw p _ ht0 hp rfl).1 hne s2 w2 hgs
    rw [readFinish_eq] at heq
    refine ⟨_, _, _, heq, ?_, ?_⟩
    · simp only [read_gain]
      exact (gain_set_fields _ _ _ _ _ hgs).2.1
    · simp only [read_rIdx]
      rw [(gain_set_fields _ _ _ _ _ hgs).2.2.2.1, read_rIdx, if_neg hne]

/-- Witness for C5 on the fixture: vnir = 1000 lies between the 402 ms
thresholds 500 and 63000, so the gain stays 16 and one read happens. -/
theorem autogain_single_correction_witness :
    ∃ res s' w', TSL2561.read 1 sampleState sampleWorld true false false =
        some (res, s', w') ∧
      s'._gain = (if (sampleWorld.readings sampleWorld.rIdx).1 <
            (IntegrationProfile.mk 0x02 450 65000 500 63000 1024).min then 16
          else if (sampleWorld.readings sampleWorld.rIdx).1 >
            (IntegrationProfile.mk 0x02 450 65000 500 63000 1024).max then 1
          else sampleState._gain) ∧
      sampleWorld.rIdx +
        (if (if (sampleWorld.readings sampleWorld.rIdx).1 <
              (IntegrationProfile.mk 0x02 450 65000 500 63000 1024).min then 16
            else if (sampleWorld.readings sampleWorld.rIdx).1 >
              (IntegrationProfile.mk 0x02 450 65000 500 63000 1024).max then 1
            else sampleState._gain) = sampleState._gain
         then 1 else 2) = w'.rIdx := by
  obtain ⟨res, s', w', h1, h2, h3⟩ := autogain_single_correction 1 sampleState
    sampleWorld false (IntegrationProfile.mk 0x02 450 65000 500 63000 1024)
    (Or.inr rfl) (by decide) (by decide)
  exact ⟨res, s', w', h1, h2, h3.symm⟩

/-- Claim C8 fails on the code: `__init__` stores the bus object in
`self._device` and never assigns `self.i2c`, so the clear-interrupt
call `interrupt(False)` evaluates the missing attribute `self.i2c` and
raises `AttributeError` on every constructed driver instead of issuing
the clear command and returning normally. -/
theorem interrupt_clear_attribute_error (pm ad idr : Nat) (w : World)
    (o : TSL2561Obj) (w' : World)
    (h : TSL2561.init pm ad idr w = Except.ok (o, w')) :
    TSL2561.interrupt o (some false) = Except.error PyError.attributeError := by
  have hi : o.i2c = none := by
    simp only [TSL2561.init] at h
    split at h
    · cases h
    · split at h
      · cases h
      · split at h
        · cases h
        · simp only [Except.ok.injEq, Prod.mk.injEq] at h
          obtain ⟨h1, -⟩ := h
          rw [← h1]
  simp only [TSL2561.interrupt, hi, Bool.false_eq_true, if_false]

/-- Witness for C8: a driver constructed with powermode STANDARD,
address 0x39, ID byte 0x50 (part_no 5, odd low bit → construction
succeeds) raises `AttributeError` from `interrupt(False)`. -/
theorem interrupt_clear_attribute_error_witness :
    (TSL2561.init 1 0x39 0x50 sampleWorld).isOk = true ∧
    (match TSL2561.init 1 0x39 0x50 sampleWorld with
     | Except.ok x =>
       TSL2561.interrupt x.1 (some false) = Except.error PyError.attributeError
     | Except.error _ => True) := by
  refine ⟨by decide, ?_⟩
  cases hinit : TSL2561.init 1 0x39 0x50 sampleWorld with
  | error e => trivial
  | ok x =>
    exact interrupt_clear_attribute_error 1 0x39 0x50 sampleWorld x.1 x.2
      (by rw [hinit])

/-- Claim C10: every successfully constructed driver leaves the
constructor with gain 16 and integration time 13 ms (not the device's
power-up defaults 1 and 402), so the getters report 16 and 13 before
any setter call. -/
theorem init_gain16_time13 (pm ad idr : Nat) (w : World)
    (o : TSL2561Obj) (w' : World)
    (h : TSL2561.init pm ad idr w = Except.ok (o, w')) :
    TSL2561.gain_get o.state = 16 ∧ TSL2561.integration_time_get o.state = 13 := by
  simp only [TSL2561.init] at h
  split at h
  · cases h
  · split at h
    · cases h
    · split at h
      · cases h
      · rename_i s1 w1 heq
        simp only [Except.ok.injEq, Prod.mk.injEq] at h
        obtain ⟨h1, -⟩ := h
        have hf := ur_fields _ _ _ _ _ _ heq
        rw [← h1]
        exact ⟨by simpa using hf.2.2.2.1, by simpa using hf.2.2.2.2.1⟩

/-- Witness for C10 at a concrete successful construction. -/
theorem init_gain16_time13_witness :
    (TSL2561.init 1 0x39 0x50 sampleWorld).isOk = true ∧
    (match TSL2561.init 1 0x39 0x50 sampleWorld with
     | Except.ok x =>
       TSL2561.gain_get x.1.state = 16 ∧
       TSL2561.integration_time_get x.1.state = 13
     | Except.error _ => True) := by
  refine ⟨by decide, ?_⟩
  cases hinit : TSL2561.init 1 0x39 0x50 sampleWorld with
  | error e => trivial
  | ok x =>
    exact init_gain16_time13 1 0x39 0x50 sampleWorld x.1 x.2 (by rw [hinit])
